import Mathlib

/-
Shallow embedding of the myregex engine (src/main.rs).

The Rust source compiles a pattern into a state graph (Regex::compile) and
simulates all live paths through it one haystack character at a time
(Regex::match / Regex::step / Regex::found_match).  The embedding below
translates each Rust function into a Lean function of the same name where
the name is usable (Rust's enum `Type` becomes `Ty` since `Type` is a Lean
keyword, and `Regex::match` becomes `matchRun` since `match` is reserved).

Modelling conventions:
- Rust `Vec<T>` used as a growable array (states, transitions, anchors as a
  VecDeque, next_states) becomes `List T` with push = append at the end, so
  element order is preserved exactly.
- Rust `Vec` used purely as a stack with push/pop/last (group_anchors,
  starts, ends) becomes `List` with the stack top at the head.
- `c as u16` (Rust char-to-u16 truncating cast) becomes `toU16 c`, the code
  point modulo 2 to the 16.
- A Rust panic (`.unwrap()` on `None`, possible in compile on a stray close
  paren) is modelled by the explicit `CompileOutcome.crash` constructor;
  graph indices touched during compilation and matching are always in range
  for the inputs the functions produce, so list indexing uses `getD` with an
  inert default.
-/

namespace Myregex

/-- Character-to-u16 truncating cast, Rust `c as u16`. -/
def toU16 (c : Char) : Nat := c.toNat % 65536

/-- Rust enum `Type` (Lean keyword, hence `Ty`). -/
inductive Ty where
  | Literal (code : Nat)
  | LiteralClass (codes : List Nat)
  | Begin
  | Match
deriving Repr, DecidableEq

/-- Rust struct `State`. -/
structure State where
  id : Nat
  t : Ty
  transitions : List Nat
deriving Repr, DecidableEq

/-- Rust `State::push_to_transitions`: append an edge target unless present. -/
def State.push_to_transitions (s : State) (ptr : Nat) : State :=
  if s.transitions.contains ptr then s
  else { s with transitions := s.transitions ++ [ptr] }

/-- Rust struct `Regex`.  `anchors` is a VecDeque used front-to-back;
`group_anchors`, `starts` and `ends` are stacks with the top at the head. -/
structure Regex where
  states : List State
  ptr : Nat
  anchors : List Nat
  group_anchors : List Nat
  starts : List (List Nat)
  ends : List (List Nat)
  next_states : List Nat
deriving Repr, DecidableEq

/-- Inert default for out-of-range indexing (never reached on the graphs the
compiler produces; Rust would panic there). -/
def defaultState : State := State.mk 0 (Ty.LiteralClass []) []

/-- Read `self.states[i]`. -/
def stateAt (r : Regex) (i : Nat) : State := r.states.getD i defaultState

/-- Mutate `self.states[i]` in place. -/
def setState (r : Regex) (i : Nat) (f : State → State) : Regex :=
  { r with states := r.states.set i (f (stateAt r i)) }

/-- Rust `Regex::update_previous_nodes`: every anchor gains an edge to `ptr`. -/
def Regex.update_previous_nodes (r : Regex) (ptr : Nat) : Regex :=
  r.anchors.foldl (fun acc a => setState acc a (fun st => st.push_to_transitions ptr)) r

/-- Rust `Regex::handle_literal`.  `peeked` is `chars.peek()`; when it is a
quantifier the caller advances past it, mirroring the `chars.next()` calls in
the source.  Returns the `continue_loop` flag and the updated regex. -/
def Regex.handle_literal (r : Regex) (state : State) (peeked : Option Char) :
    Bool × Regex :=
  let r := { r with ptr := r.ptr + 1 }
  match peeked with
  | some '*' =>
    let state := state.push_to_transitions r.ptr
    let r := r.update_previous_nodes r.ptr
    (true, { r with anchors := r.anchors ++ [r.ptr], states := r.states ++ [state] })
  | some '?' =>
    let r := r.update_previous_nodes r.ptr
    (true, { r with anchors := r.anchors ++ [r.ptr], states := r.states ++ [state] })
  | some '+' =>
    let state := state.push_to_transitions r.ptr
    let r := r.update_previous_nodes r.ptr
    let r := { r with anchors := [] }
    (true, { r with anchors := r.anchors ++ [r.ptr], states := r.states ++ [state] })
  | some _ =>
    let r := r.update_previous_nodes r.ptr
    let r := { r with anchors := [] }
    (true, { r with anchors := r.anchors ++ [r.ptr], states := r.states ++ [state] })
  | none =>
    let r := r.update_previous_nodes r.ptr
    let r := { r with anchors := [] }
    (false, { r with anchors := r.anchors ++ [r.ptr], states := r.states ++ [state] })

/-- Rust `Regex::handle_close_group`.  Pops the three group stacks (Rust
`.pop().unwrap()`; `none` models the panic on an empty stack) and wires the
group according to the peeked quantifier.  The caller advances past a peeked
quantifier. -/
def Regex.handle_close_group (r : Regex) (peeked : Option Char) :
    Option (Bool × Regex) :=
  match r.group_anchors, r.starts, r.ends with
  | start_ptr :: gtail, group_start_ptrs :: stail, group_end_ptrs :: etail =>
    let r := { r with group_anchors := gtail, starts := stail, ends := etail }
    match peeked with
    | some '*' =>
      let r := group_start_ptrs.foldl (fun acc gs =>
        let acc := group_end_ptrs.foldl
          (fun a ge => setState a ge (fun st => st.push_to_transitions gs)) acc
        let acc := setState acc start_ptr (fun st => st.push_to_transitions gs)
        acc.update_previous_nodes gs) r
      let r := group_end_ptrs.foldl
        (fun a ge => setState a ge (fun st => st.push_to_transitions (r.ptr + 1))) r
      some (true, setState r start_ptr (fun st => st.push_to_transitions (r.ptr + 1)))
    | some '?' =>
      let r := group_start_ptrs.foldl (fun acc gs =>
        let acc := group_end_ptrs.foldl
          (fun a ge => setState a ge (fun st => st.push_to_transitions gs)) acc
        let acc := setState acc start_ptr (fun st => st.push_to_transitions gs)
        acc.update_previous_nodes gs) r
      let r := group_end_ptrs.foldl
        (fun a ge => setState a ge (fun st => st.push_to_transitions (r.ptr + 1))) r
      some (true, setState r start_ptr (fun st => st.push_to_transitions (r.ptr + 1)))
    | some '+' =>
      let r := group_start_ptrs.foldl (fun acc gs =>
        let acc := group_end_ptrs.foldl
          (fun a ge => setState a ge (fun st => st.push_to_transitions gs)) acc
        let acc := setState acc start_ptr (fun st => st.push_to_transitions gs)
        acc.update_previous_nodes gs) r
      let r := group_end_ptrs.foldl
        (fun a ge => setState a ge (fun st => st.push_to_transitions (r.ptr + 1))) r
      some (true, r)
    | some _ =>
      some (true, group_end_ptrs.foldl
        (fun a ge => setState a ge (fun st => st.push_to_transitions (r.ptr + 1))) r)
    | none => some (false, r)
  | _, _, _ => none

/-- Rust `Regex::update_ends`: pop the top `ends` frame and give each recorded
exit an edge to `ptr`; `none` models the panic when the stack is empty. -/
def Regex.update_ends (r : Regex) (ptr : Nat) : Option Regex :=
  match r.ends with
  | ends0 :: etail =>
    some (ends0.foldl
      (fun acc e => setState acc e (fun st => st.push_to_transitions ptr))
      { r with ends := etail })
  | [] => none

/-- Result of `Regex::compile`: `Ok`, `Err`, or a Rust panic (`crash`). -/
inductive CompileOutcome where
  | ok (r : Regex)
  | err (msg : String)
  | crash (msg : String)
deriving Repr, DecidableEq

def emptyPatternMsg : String :=
  "Invalid regex, compilation failed. Empty patterns are not allowed"

def invalidPatternMsg : String :=
  "Invalid regex, compilation failed. Invalid regex pattern"

def emptyStackMsg : String := "called Option::unwrap() on a None value"

/-- Rust `Regex::finish_regex` followed by the `Ok(regex)` of `compile`:
append the Match sentinel, wire anchors and pending ends to it, reset `ptr`. -/
def Regex.finish_regex (r : Regex) : CompileOutcome :=
  let new_ptr := r.ptr + 1
  let state := State.mk new_ptr Ty.Match []
  let r := r.update_previous_nodes new_ptr
  match r.update_ends new_ptr with
  | some r => CompileOutcome.ok { r with states := r.states ++ [state], ptr := 0 }
  | none => CompileOutcome.crash emptyStackMsg

/-- Result of one iteration of the compile loop: either continue with the
updated regex (recording whether the peeked character was consumed by
`chars.next()` inside the handler), or stop with a final outcome (an error,
a crash, or the `break`-then-`finish_regex` path). -/
inductive StepRes where
  | cont (r : Regex) (consumedPeek : Bool)
  | halt (out : CompileOutcome)
deriving Repr

/-- A peeked quantifier is consumed by the handler (`chars.next()`). -/
def peekIsQuant : Option Char → Bool
  | some '*' => true
  | some '?' => true
  | some '+' => true
  | _ => false

/-- Body of the `while let Some(c) = chars.next()` loop of Rust
`Regex::compile`: one `match c` dispatch, with `peeked = chars.peek()`. -/
def compileStep (r : Regex) (c : Char) (peeked : Option Char) : StepRes :=
  if c = '|' then
    match peeked with
    | none => StepRes.halt (CompileOutcome.err invalidPatternMsg)
    | some _ =>
      match r.ends, r.starts, r.group_anchors with
      | elast :: etail, slast :: stail, ga :: _ =>
        let r1 := { r with ends := (elast ++ r.anchors) :: etail,
                           starts := (slast ++ [r.ptr + 1]) :: stail }
        StepRes.cont (setState r1 ga (fun st => st.push_to_transitions (r1.ptr + 1))) false
      | _, _, _ => StepRes.halt (CompileOutcome.crash emptyStackMsg)
  else if c = '(' then
    StepRes.cont { r with group_anchors := r.ptr :: r.group_anchors,
                          starts := [r.ptr + 1] :: r.starts,
                          ends := [] :: r.ends } false
  else if c = ')' then
    match r.ends with
    | elast :: etail =>
      let r1 := { r with ends := (elast ++ [r.ptr]) :: etail }
      match r1.handle_close_group peeked with
      | some (cont, r2) =>
        if cont then StepRes.cont r2 (peekIsQuant peeked)
        else StepRes.halt r2.finish_regex
      | none => StepRes.halt (CompileOutcome.crash emptyStackMsg)
    | [] => StepRes.halt (CompileOutcome.crash emptyStackMsg)
  else if c = '*' ∨ c = '+' ∨ c = '?' then
    StepRes.halt (CompileOutcome.err invalidPatternMsg)
  else
    let t := if c = '.' then Ty.Literal 256 else Ty.Literal (toU16 c)
    let state := State.mk (r.ptr + 1) t []
    let p := r.handle_literal state peeked
    if p.1 then StepRes.cont p.2 (peekIsQuant peeked)
    else StepRes.halt p.2.finish_regex

/-- The compile loop itself.  In the one-character case a `cont` result means
the remaining input is empty, so the loop immediately ends and `finish_regex`
runs (the unfolding of `compileLoop r2 []`). -/
def compileLoop : Regex → List Char → CompileOutcome
  | r, [] => r.finish_regex
  | r, [c] =>
    match compileStep r c none with
    | StepRes.halt out => out
    | StepRes.cont r2 _ => r2.finish_regex
  | r, c :: q :: rest2 =>
    match compileStep r c (some q) with
    | StepRes.halt out => out
    | StepRes.cont r2 consumed =>
      if consumed then compileLoop r2 rest2 else compileLoop r2 (q :: rest2)

/-- Rust `Regex::compile`. -/
def Regex.compile (pattern : String) : CompileOutcome :=
  let regex : Regex :=
    { states := [State.mk 0 Ty.Begin [1]], ptr := 0, anchors := [0],
      group_anchors := [0], starts := [[]], ends := [[]], next_states := [0] }
  if pattern.data.isEmpty then CompileOutcome.err emptyPatternMsg
  else compileLoop regex pattern.data

/-- Rust `Regex::step`: test one edge target against the character `c` and
push it onto `new_states` when it matches (a Match or Begin target is pushed
unconditionally, as in the source). -/
def Regex.step (r : Regex) (transition : Nat) (c : Char) (new_states : List Nat) :
    List Nat :=
  match (stateAt r transition).t with
  | Ty.Literal ch =>
    if ch = 256 ∨ toU16 c = ch then new_states ++ [transition] else new_states
  | Ty.LiteralClass codes =>
    if codes.contains (toU16 c) then new_states ++ [transition] else new_states
  | Ty.Match => new_states ++ [transition]
  | Ty.Begin => new_states ++ [transition]

/-- One character of the Rust `Regex::match` loop: drain the frontier by
popping from its end (`next_states.pop()`), stepping every transition of each
popped state. -/
def Regex.stepChar (r : Regex) (c : Char) (frontier : List Nat) : List Nat :=
  frontier.reverse.foldl (fun acc cur =>
    (stateAt r cur).transitions.foldl (fun a tr => r.step tr c a) acc) []

/-- Rust `if let Type::Match = ...` test used by `found_match`. -/
def Ty.isMatchKind : Ty → Bool
  | Ty.Match => true
  | _ => false

/-- Rust `Regex::found_match`: some frontier state has an edge to a
Match-kind state. -/
def Regex.found_match (r : Regex) : Bool :=
  r.next_states.any (fun s =>
    (stateAt r s).transitions.any (fun tr => (stateAt r tr).t.isMatchKind))

/-- Rust `Regex::match` (`match` is reserved in Lean).  Threads the frontier
through the haystack, stores the final frontier back into `next_states`
(mirroring the `&mut self` mutation), then checks acceptance. -/
def Regex.matchRun (r : Regex) (haystack : List Char) : Bool × Regex :=
  let final := haystack.foldl (fun frontier c => r.stepChar c frontier) r.next_states
  let r2 := { r with next_states := final }
  (r2.found_match, r2)

/-- Result of `is_match`: the boolean, a compile error, or a Rust panic. -/
inductive MatchOutcome where
  | ok (b : Bool)
  | err (msg : String)
  | crash (msg : String)
deriving Repr, DecidableEq

/-- Rust free function `is_match`. -/
def is_match (s : String) (p : String) : MatchOutcome :=
  match Regex.compile p with
  | CompileOutcome.ok r => MatchOutcome.ok (r.matchRun s.data).1
  | CompileOutcome.err m => MatchOutcome.err m
  | CompileOutcome.crash m => MatchOutcome.crash m

/-! Auxiliary definitions used by the claim statements. -/

/-- Recognise an `Err` compile outcome. -/
def isCompileErr : CompileOutcome → Bool
  | CompileOutcome.err _ => true
  | _ => false

/-- Recognise an `Ok` compile outcome. -/
def isCompileOk : CompileOutcome → Bool
  | CompileOutcome.ok _ => true
  | _ => false

/-- Recognise a crash (Rust panic) compile outcome. -/
def isCompileCrash : CompileOutcome → Bool
  | CompileOutcome.crash _ => true
  | _ => false

/-- Recognise an `Err` result of `is_match`. -/
def isMatchErr : MatchOutcome → Bool
  | MatchOutcome.err _ => true
  | _ => false

/-- The graph Rust `compile` builds for a one-character literal pattern `c`:
Begin with an edge to the literal node, the literal node with an edge to the
Match sentinel. -/
def litRegex (c : Char) : Regex :=
  { states := [State.mk 0 Ty.Begin [1], State.mk 1 (Ty.Literal (toU16 c)) [2],
               State.mk 2 Ty.Match []],
    ptr := 0, anchors := [1], group_anchors := [0], starts := [[]], ends := [],
    next_states := [0] }

/-- Compile `p` once and run the match operation twice in a row on that same
compiled value with haystack `s`, returning the two booleans (the scenario of
repeated calls on one compiled Regex). -/
def matchTwice (p s : String) : Bool × Bool :=
  match Regex.compile p with
  | CompileOutcome.ok r =>
    let p1 := r.matchRun s.data
    let p2 := p1.2.matchRun s.data
    (p1.1, p2.1)
  | _ => (false, false)

/-- The compiled value for pattern "a" after matching haystack "ab" (its
`next_states` field holds the final frontier of that run). -/
def regexAfterAB : Regex :=
  match Regex.compile "a" with
  | CompileOutcome.ok r => (r.matchRun "ab".data).2
  | _ => { states := [], ptr := 0, anchors := [], group_anchors := [],
           starts := [], ends := [], next_states := [] }

/-! Helper lemmas. -/

/-- The Match-kind test accepts exactly the `Match` constructor. -/
theorem Ty.isMatchKind_eq_true (ty : Ty) : ty.isMatchKind = true ↔ ty = Ty.Match := by
  cases ty <;> simp [Ty.isMatchKind]

/-- Compiling a one-character non-metacharacter pattern yields exactly
`litRegex c`. -/
theorem compile_single_literal (c : Char) (hdot : c ≠ '.') (hstar : c ≠ '*')
    (hplus : c ≠ '+') (hques : c ≠ '?') (hpipe : c ≠ '|') (hopen : c ≠ '(')
    (hclose : c ≠ ')') :
    Regex.compile (String.mk [c]) = CompileOutcome.ok (litRegex c) := by
  have hq : ¬(c = '*' ∨ c = '+' ∨ c = '?') := by
    rintro (h | h | h) <;> [exact hstar h; exact hplus h; exact hques h]
  show compileLoop _ [c] = _
  rw [compileLoop, compileStep]
  simp only [if_neg hpipe, if_neg hopen, if_neg hclose, if_neg hq, if_neg hdot]
  rfl

/-- Matching a single character `d` against the one-literal graph for `c`
accepts iff `c`'s truncated code is the wildcard sentinel 256 or the two
truncated codes agree. -/
theorem litRegex_match (c d : Char) :
    ((litRegex c).matchRun [d]).1 = true ↔ (toU16 c = 256 ∨ toU16 d = toU16 c) := by
  by_cases h : toU16 c = 256 ∨ toU16 d = toU16 c
  · simp [Regex.matchRun, Regex.stepChar, Regex.step, Regex.found_match, stateAt,
      litRegex, defaultState, Ty.isMatchKind, if_pos h, h]
  · simp [Regex.matchRun, Regex.stepChar, Regex.step, Regex.found_match, stateAt,
      litRegex, defaultState, Ty.isMatchKind, if_neg h, h]

/-- The graph Rust `compile` builds for the wildcard pattern ".". -/
def dotRegex : Regex :=
  { states := [State.mk 0 Ty.Begin [1], State.mk 1 (Ty.Literal 256) [2],
               State.mk 2 Ty.Match []],
    ptr := 0, anchors := [1], group_anchors := [0], starts := [[]], ends := [],
    next_states := [0] }

/-- Compiling "." yields exactly `dotRegex`. -/
theorem compile_dot : Regex.compile "." = CompileOutcome.ok dotRegex := rfl

/-- The wildcard graph accepts every single character. -/
theorem dotRegex_match (d : Char) : (dotRegex.matchRun [d]).1 = true := by
  simp [Regex.matchRun, Regex.stepChar, Regex.step, Regex.found_match, stateAt,
    dotRegex, defaultState, Ty.isMatchKind]

/-! Claim theorems. -/

/-- C1: Matching is full-string: the verdict of the match operation is
`found_match` applied to the frontier obtained by folding the step function
over every character of the haystack (nothing is decided before the whole
haystack is consumed), and concretely a matched proper prefix with trailing
input is rejected: `is_match("ab", "a")` is `Ok(false)` while
`is_match("a", "a")` is `Ok(true)`. -/
theorem c1_full_string_matching :
    (∀ (r : Regex) (s : List Char),
      (r.matchRun s).1 =
        Regex.found_match
          { r with next_states := s.foldl (fun frontier c => r.stepChar c frontier) r.next_states }) ∧
    is_match "ab" "a" = MatchOutcome.ok false ∧
    is_match "a" "a" = MatchOutcome.ok true :=
  ⟨fun _ _ => rfl, rfl, rfl⟩

/-- C2 counterexample: the pattern consisting of the single literal character
`'Ā'` (code point 256, not a metacharacter) matches the different character
`'a'`, because `'Ā' as u16` is exactly the wildcard sentinel 256; so
`is_match(d, c)` can return `Ok(true)` with `d` not the same character as
`c`, refuting the claim as stated. -/
theorem c2_counterexample :
    is_match "a" "Ā" = MatchOutcome.ok true ∧ ('a' : Char) ≠ 'Ā' :=
  ⟨rfl, by decide⟩

/-- C2 amended: for a pattern that is a single literal character `c` (not one
of the metacharacters) and a single-character haystack `d`, `is_match`
returns `Ok(true)` iff `c`'s 16-bit-truncated code is the wildcard sentinel
256 or `d`'s truncated code equals `c`'s truncated code; and the pattern "."
matches every single character. -/
theorem c2_single_literal (c d : Char) (hdot : c ≠ '.') (hstar : c ≠ '*')
    (hplus : c ≠ '+') (hques : c ≠ '?') (hpipe : c ≠ '|') (hopen : c ≠ '(')
    (hclose : c ≠ ')') :
    (is_match (String.mk [d]) (String.mk [c]) = MatchOutcome.ok true ↔
      (toU16 c = 256 ∨ toU16 d = toU16 c)) ∧
    is_match (String.mk [d]) "." = MatchOutcome.ok true := by
  constructor
  · have hc := compile_single_literal c hdot hstar hplus hques hpipe hopen hclose
    have key : is_match (String.mk [d]) (String.mk [c]) =
        MatchOutcome.ok ((litRegex c).matchRun [d]).1 := by
      simp only [is_match, hc]
    rw [key]
    simp only [MatchOutcome.ok.injEq]
    exact litRegex_match c d
  · have key : is_match (String.mk [d]) "." =
        MatchOutcome.ok ((dotRegex.matchRun [d]).1) := by
      simp only [is_match, compile_dot]
    rw [key, dotRegex_match d]

/-- witness for C2: the ordinary literal 'b' matches itself. -/
theorem c2_single_literal_witness :
    (is_match (String.mk ['b']) (String.mk ['b']) = MatchOutcome.ok true ↔
      (toU16 'b' = 256 ∨ toU16 'b' = toU16 'b')) ∧
    is_match (String.mk ['b']) "." = MatchOutcome.ok true :=
  c2_single_literal 'b' 'b' (by decide) (by decide) (by decide) (by decide)
    (by decide) (by decide) (by decide)

/-- C3 counterexample: compiling "a" once and calling the match operation
twice in a row on that same compiled value with haystack "a" yields `true`
then `false`: the match operation consumes the stored `next_states` frontier,
so the second call does not return the same boolean as the first. -/
theorem c3_counterexample :
    matchTwice "a" "a" = (true, false) ∧ (true ≠ false) :=
  ⟨rfl, by decide⟩

/-- C3 amended: repeated matching yields the same boolean only if the
`next_states` frontier field is restored to its pre-call value between calls;
since the match operation mutates nothing but `next_states`, restoring that
one field makes a repeated call with the same haystack return exactly the
first call's boolean. -/
theorem c3_rematch_after_frontier_reset :
    ∀ (r : Regex) (s : List Char),
      (({ (r.matchRun s).2 with next_states := r.next_states }).matchRun s).1 =
        (r.matchRun s).1 :=
  fun _ _ => rfl

/-- C4: each of the sixteen listed patterns is rejected at compile time with
an `Err` (not a panic), and `is_match` on any haystack propagates that error. -/
theorem c4_sixteen_rejections :
    (["*", "?", "+", "|", "a**", "a*+", "a*?", "a*|", "a?+", "a?*", "a??",
      "a?|", "a++", "a+*", "a+?", "a+|"].all
      (fun p => isCompileErr (Regex.compile p) && isMatchErr (is_match "_" p))) = true := by
  decide

/-- C5 counterexample: a pattern whose first character is `|` followed by
more characters, and a pattern with two adjacent `|`, both compile
successfully, refuting the claim that such patterns fail compilation. -/
theorem c5_counterexample :
    isCompileOk (Regex.compile "|x") = true ∧ isCompileOk (Regex.compile "a||b") = true :=
  ⟨rfl, rfl⟩

/-- C5 amended: the `|` arm of compile errors only when the `|` is
immediately followed by end of pattern; a leading `|` or a `|` directly after
another `|` compiles fine (the leading-alternation pattern "|x" even matches
like "x"). -/
theorem c5_pipe_fails_only_when_trailing :
    isCompileErr (Regex.compile "|") = true ∧
    isCompileErr (Regex.compile "a|") = true ∧
    isCompileOk (Regex.compile "|x") = true ∧
    isCompileOk (Regex.compile "a||b") = true ∧
    is_match "x" "|x" = MatchOutcome.ok true :=
  ⟨rfl, rfl, rfl, rfl, rfl⟩

/-- C6: compile is not total as claimed: a stray close paren exhausts the
compiler's group stacks and the Rust code panics (`.unwrap()` on `None`)
instead of returning `Err`; the embedding records that panic as `crash`. -/
theorem c6_stray_close_paren_panics :
    isCompileCrash (Regex.compile ")") = true ∧
    isCompileCrash (Regex.compile "))") = true ∧
    Regex.compile ")" = CompileOutcome.crash emptyStackMsg :=
  ⟨rfl, rfl, rfl⟩

/-- C7 counterexample: matching haystack "ab" against pattern "a" leaves the
frontier equal to `[2]`, and node 2 of that graph is the Match sentinel: the
step function pushes a Match-kind edge target into the frontier whenever a
further character is consumed from a state with an edge to Match, refuting
the claim that Match never appears in the frontier. -/
theorem c7_counterexample :
    regexAfterAB.next_states = [2] ∧ (stateAt regexAfterAB 2).t = Ty.Match :=
  ⟨rfl, rfl⟩

/-- C7 amended: the Match sentinel can enter the frontier, but acceptance is
still decided only via edges: `found_match` returns true exactly when some
frontier member has an outgoing edge to a Match-kind node (mere membership of
the Match node in the frontier is not what is tested, and on the "a"/"ab" run
above the verdict is false even though Match sits in the frontier). -/
theorem c7_acceptance_tested_via_edges :
    (∀ (r : Regex),
      r.found_match = true ↔
        ∃ s ∈ r.next_states, ∃ tr ∈ (stateAt r s).transitions,
          (stateAt r tr).t = Ty.Match) ∧
    regexAfterAB.found_match = false := by
  constructor
  · intro r
    simp [Regex.found_match, List.any_eq_true, Ty.isMatchKind_eq_true]
  · rfl

/-- C8: matching never mutates the state graph: the match operation writes
only the `next_states` frontier, so the `states` vector (every node's kind
and transition list, and the number of nodes) after the call is exactly the
one before the call. -/
theorem c8_match_never_mutates_graph :
    ∀ (r : Regex) (s : List Char), ((r.matchRun s).2).states = r.states :=
  fun _ _ => rfl

/-- C9: the empty pattern is rejected: compile returns the EmptyPattern error
before building anything, and `is_match` propagates that error for every
haystack without attempting a match. -/
theorem c9_empty_pattern_rejected :
    Regex.compile "" = CompileOutcome.err emptyPatternMsg ∧
    ∀ (s : String), is_match s "" = MatchOutcome.err emptyPatternMsg :=
  ⟨rfl, fun _ => rfl⟩

/-- C10: closing a group with a following `?` performs exactly the same
wiring as `*` (loop-back edges from every group exit to every group start,
plus the skip edge), so a `?`-quantified group permits repetition; in
particular `is_match("abab", "(ab)?")` returns `Ok(true)`. -/
theorem c10_group_question_behaves_like_star :
    (∀ (r : Regex),
      r.handle_close_group (some '?') = r.handle_close_group (some '*')) ∧
    is_match "abab" "(ab)?" = MatchOutcome.ok true := by
  constructor
  · intro r
    rcases r with ⟨st, p, a, ga, ss, es, ns⟩
    cases ga <;> cases ss <;> cases es <;> rfl
  · rfl

end Myregex
